import Mathlib

/-!
Verification of the job/task orchestration layer of the ACJ_YTD repository.

The Python sources are shallowly embedded: pure fragments become Lean
functions, the Redis-backed state becomes explicit state passing, Python
`datetime` values are identified with their ISO-8601 rendering (the stdlib
guarantees `fromisoformat (isoformat d) = d` and that `isoformat` never
returns the empty string), JSON-serializable Python values become the
`Json` inductive below (Python's `json.dumps`/`json.loads` round-trips
them, so the durable store is modelled as holding the values themselves),
and fallible operations return `Option`/`Except`.
-/

/-- `shared/models.py` `JobStatus(str, Enum)`. -/
inductive JobStatus where
  | pending
  | queued
  | running
  | paused
  | completed
  | failed
  | cancelled
deriving DecidableEq, Repr

/-- The `.value` string of each `JobStatus` member (`shared/models.py`). -/
def status_value : JobStatus → String
  | JobStatus.pending => "pending"
  | JobStatus.queued => "queued"
  | JobStatus.running => "running"
  | JobStatus.paused => "paused"
  | JobStatus.completed => "completed"
  | JobStatus.failed => "failed"
  | JobStatus.cancelled => "cancelled"

/-- The `JobStatus(value)` enum constructor: `some` on a member value,
`none` where Python raises `ValueError`. -/
def job_status_of_value (s : String) : Option JobStatus :=
  if s = "pending" then some JobStatus.pending
  else if s = "queued" then some JobStatus.queued
  else if s = "running" then some JobStatus.running
  else if s = "paused" then some JobStatus.paused
  else if s = "completed" then some JobStatus.completed
  else if s = "failed" then some JobStatus.failed
  else if s = "cancelled" then some JobStatus.cancelled
  else none

theorem job_status_of_value_status_value (s : JobStatus) :
    job_status_of_value (status_value s) = some s := by
  cases s <;> rfl

/-- `shared/models.py` `MessageType(str, Enum)`. -/
inductive MessageType where
  | job_created
  | job_started
  | job_progress
  | job_completed
  | job_failed
  | job_cancelled
  | job_resume
  | job_pause
  | download_started
  | download_progress
  | download_completed
  | download_failed
  | download_resume
  | storage_upload
  | storage_delete
  | storage_cleanup
  | analytics_update
  | health_check
deriving DecidableEq, Repr

/-- A Python `datetime`, identified with its (never empty) ISO-8601
rendering `d.isoformat()`. -/
structure PyDateTime where
  iso : String
  iso_nonempty : iso ≠ ""

/-- `datetime.fromisoformat`: inverts `isoformat`; raises (here `none`) on
the empty string, which is the only falsy string. -/
def py_fromisoformat (s : String) : Option PyDateTime :=
  if h : s = "" then none else some ⟨s, h⟩

theorem py_fromisoformat_iso (d : PyDateTime) : py_fromisoformat d.iso = some d := by
  cases d with
  | mk s h => simp [py_fromisoformat, h]

/-- A JSON-serializable Python value (config maps, message payloads,
resume blobs). `json.dumps`/`json.loads` round-trips these, so the model
stores them directly. -/
inductive Json where
  | null
  | bool (b : Bool)
  | num (q : ℚ)
  | str (s : String)
  | arr (elems : List Json)
  | obj (fields : List (String × Json))

/-! ### Decimal rendering of naturals

`f"{i}"` in Python renders a nonnegative integer in decimal, exactly as
Lean's `Nat.repr`. Task identifiers embed such renderings, so we prove
`Nat.repr` injective by exhibiting the decimal decoder as a left inverse.
-/

/-- Value of a decimal digit character (left inverse of `Nat.digitChar`
on digits `0..9`). -/
def char_digit_val (c : Char) : ℕ :=
  if c = '0' then 0
  else if c = '1' then 1
  else if c = '2' then 2
  else if c = '3' then 3
  else if c = '4' then 4
  else if c = '5' then 5
  else if c = '6' then 6
  else if c = '7' then 7
  else if c = '8' then 8
  else if c = '9' then 9
  else 0

/-- Decode a decimal digit string back to a natural number. -/
def decode_digits (l : List Char) : ℕ :=
  l.foldl (fun acc c => 10 * acc + char_digit_val c) 0

theorem char_digit_val_digitChar : ∀ d : ℕ, d < 10 → char_digit_val (Nat.digitChar d) = d := by
  decide

theorem decode_digits_append (l : List Char) (c : Char) :
    decode_digits (l ++ [c]) = 10 * decode_digits l + char_digit_val c := by
  simp [decode_digits, List.foldl_append]

theorem toDigitsCore_accum (b : ℕ) :
    ∀ (f n : ℕ) (l : List Char),
      Nat.toDigitsCore b f n l = Nat.toDigitsCore b f n [] ++ l := by
  intro f
  induction f with
  | zero => intro n l; simp [Nat.toDigitsCore]
  | succ f ih =>
    intro n l
    simp only [Nat.toDigitsCore]
    by_cases h : n / b = 0
    · simp [h]
    · simp only [h, if_false]
      rw [ih (n / b) (Nat.digitChar (n % b) :: l), ih (n / b) [Nat.digitChar (n % b)]]
      simp

theorem decode_digits_toDigitsCore :
    ∀ (f n : ℕ), n < 10 ^ f → decode_digits (Nat.toDigitsCore 10 f n []) = n := by
  intro f
  induction f with
  | zero =>
    intro n hn
    have h0 : n = 0 := by simpa [Nat.lt_one_iff] using hn
    subst h0
    simp [Nat.toDigitsCore, decode_digits]
  | succ f ih =>
    intro n hn
    simp only [Nat.toDigitsCore]
    by_cases h : n / 10 = 0
    · have hlt : n < 10 := (Nat.div_eq_zero_iff (by norm_num)).1 h
      simp only [h, if_true]
      have : decode_digits [Nat.digitChar (n % 10)] = char_digit_val (Nat.digitChar (n % 10)) := by
        simp [decode_digits]
      rw [this, char_digit_val_digitChar (n % 10) (Nat.mod_lt n (by norm_num))]
      exact Nat.mod_eq_of_lt hlt
    · simp only [h, if_false]
      rw [toDigitsCore_accum 10 f (n / 10) [Nat.digitChar (n % 10)]]
      rw [decode_digits_append]
      have hdiv : n / 10 < 10 ^ f := by
        rw [Nat.div_lt_iff_lt_mul (by norm_num : 0 < 10)]
        calc n < 10 ^ (f + 1) := hn
        _ = 10 ^ f * 10 := by ring
      rw [ih (n / 10) hdiv]
      rw [char_digit_val_digitChar (n % 10) (Nat.mod_lt n (by norm_num))]
      exact Nat.div_add_mod n 10

theorem decode_digits_toDigits (n : ℕ) :
    decode_digits (Nat.toDigits 10 n) = n := by
  have h10 : n < 10 ^ (n + 1) := by
    calc n < 2 ^ n := Nat.lt_two_pow n
    _ ≤ 10 ^ n := Nat.pow_le_pow_left (by norm_num) n
    _ ≤ 10 ^ (n + 1) := Nat.pow_le_pow_right (by norm_num) (Nat.le_succ n)
  exact decode_digits_toDigitsCore (n + 1) n h10

theorem nat_repr_injective : Function.Injective Nat.repr := by
  intro m n h
  have hl : Nat.toDigits 10 m = Nat.toDigits 10 n := by
    have := congrArg String.data h
    simpa [Nat.repr, List.asString] using this
  calc m = decode_digits (Nat.toDigits 10 m) := (decode_digits_toDigits m).symm
  _ = decode_digits (Nat.toDigits 10 n) := by rw [hl]
  _ = n := decode_digits_toDigits n

/-! ### Job records and the durable store

`shared/models.py` `DownloadJob`, and `services/job-manager/app.py`
`JobManager._store_job` / `JobManager._load_job`. The durable store keeps,
under key `job:<id>`, the JSON object built by `_store_job`; that object
is modelled field-for-field by `StoredJob`.
-/

/-- `shared/models.py` `DownloadJob` dataclass. -/
structure DownloadJob where
  id : String
  urls : List String
  config : Json
  status : JobStatus
  priority : Int
  created_at : PyDateTime
  started_at : Option PyDateTime
  completed_at : Option PyDateTime
  progress : ℚ
  error : Option String
  retry_count : Int
  max_retries : Int
  resume_data : Option Json

/-- The `job_data` dict written by `JobManager._store_job`. -/
structure StoredJob where
  sid : String
  surls : List String
  sconfig : Json
  sstatus : String
  spriority : Int
  screated_at : String
  sstarted_at : Option String
  scompleted_at : Option String
  sprogress : ℚ
  serror : Option String
  sretry_count : Int
  smax_retries : Int
  sresume_data : Option Json

/-- Body of `JobManager._store_job`: serialize every field; datetimes via
`isoformat` (optional ones map `None` to `None`). -/
def encode_job (j : DownloadJob) : StoredJob where
  sid := j.id
  surls := j.urls
  sconfig := j.config
  sstatus := status_value j.status
  spriority := j.priority
  screated_at := j.created_at.iso
  sstarted_at := j.started_at.map PyDateTime.iso
  scompleted_at := j.completed_at.map PyDateTime.iso
  sprogress := j.progress
  serror := j.error
  sretry_count := j.retry_count
  smax_retries := j.max_retries
  sresume_data := j.resume_data

/-- `datetime.fromisoformat(x) if data.get(k) else None` in `_load_job`:
Python truthiness makes `None` and `""` fall to `None`; otherwise the
parse runs and its failure propagates as the enclosing `except`. -/
def decode_opt_dt (o : Option String) : Option (Option PyDateTime) :=
  match o with
  | none => some none
  | some s => if s = "" then some none else (py_fromisoformat s).map some

/-- Body of `JobManager._load_job`'s `try` block: rebuild a `DownloadJob`;
any failure (unknown status value, unparsable datetime) yields `None`. -/
def decode_job (d : StoredJob) : Option DownloadJob := do
  let st ← job_status_of_value d.sstatus
  let ca ← py_fromisoformat d.screated_at
  let sa ← decode_opt_dt d.sstarted_at
  let co ← decode_opt_dt d.scompleted_at
  pure {
    id := d.sid
    urls := d.surls
    config := d.sconfig
    status := st
    priority := d.spriority
    created_at := ca
    started_at := sa
    completed_at := co
    progress := d.sprogress
    error := d.serror
    retry_count := d.sretry_count
    max_retries := d.smax_retries
    resume_data := d.sresume_data }

/-- The durable key/value store (the Redis string keyspace used for job
records), read with first-match lookup so a fresh `setex` shadows any
older value: read-your-writes. -/
def Store := List (String × StoredJob)

/-- `redis.setex(key, ttl, value)` (the 7-day TTL does not affect the
value read back before expiry). -/
def redis_setex (s : Store) (k : String) (v : StoredJob) : Store :=
  (k, v) :: s

/-- `redis.get(key)`. -/
def redis_get (s : Store) (k : String) : Option StoredJob :=
  List.lookup k s

/-- `JobManager._store_job`. -/
def store_job (s : Store) (j : DownloadJob) : Store :=
  redis_setex s ("job:" ++ j.id) (encode_job j)

/-- `JobManager._load_job`. -/
def load_job (s : Store) (jid : String) : Option DownloadJob :=
  match redis_get s ("job:" ++ jid) with
  | none => none
  | some d => decode_job d

theorem decode_opt_dt_encode (o : Option PyDateTime) :
    decode_opt_dt (o.map PyDateTime.iso) = some o := by
  cases o with
  | none => rfl
  | some d =>
    simp [decode_opt_dt, d.iso_nonempty, py_fromisoformat_iso]

theorem decode_job_encode_job (j : DownloadJob) :
    decode_job (encode_job j) = some j := by
  cases j with
  | mk id urls config status priority created_at started_at completed_at progress
      error retry_count max_retries resume_data =>
    simp [decode_job, encode_job, job_status_of_value_status_value,
      py_fromisoformat_iso, decode_opt_dt_encode]

theorem load_job_store_job (s : Store) (j : DownloadJob) :
    load_job (store_job s j) j.id = some j := by
  simp [load_job, store_job, redis_setex, redis_get, List.lookup,
    decode_job_encode_job]

/-! ### Job Manager state machine

`services/job-manager/app.py`. State: the Redis job records (`Store`),
the `job_queue` sorted set, and the in-memory `active_jobs` dict.
-/

/-- A Redis sorted set: members with scores. `zadd` updates the score of
an existing member, otherwise appends. -/
abbrev Zset := List (String × Int)

/-- `redis.zadd(key, member: score)` on the set's entries. -/
def zadd (q : Zset) (member : String) (score : Int) : Zset :=
  if q.any (fun p => p.1 == member) then
    q.map (fun p => if p.1 == member then (p.1, score) else p)
  else
    q ++ [(member, score)]

/-- `redis.zrem(key, member)` on the set's entries. -/
def zrem (q : Zset) (member : String) : Zset :=
  q.filter (fun p => p.1 != member)

/-- Membership in the sorted set. -/
def zmember (q : Zset) (member : String) : Bool :=
  q.any (fun p => p.1 == member)

theorem zmember_zadd_self (q : Zset) (member : String) (score : Int) :
    zmember (zadd q member score) member = true := by
  unfold zmember zadd
  by_cases h : q.any (fun p => p.1 == member)
  · simp only [h, if_true, List.any_map]
    obtain ⟨p, hp, hpm⟩ := (List.any_eq_true).1 h
    refine (List.any_eq_true).2 ⟨p, hp, ?_⟩
    simp [Function.comp, hpm]
  · simp only [h, if_false]
    simp

/-- The mutable state of a `JobManager` instance. -/
structure JMState where
  store : Store
  queue : Zset
  active : List (String × DownloadJob)

/-- `JobManager.get_job`: in-memory `active_jobs` first, else Redis. -/
def get_job (st : JMState) (jid : String) : Option DownloadJob :=
  match List.lookup jid st.active with
  | some j => some j
  | none => load_job st.store jid

/-- `del self.active_jobs[job_id]` guarded by membership. -/
def drop_active (a : List (String × DownloadJob)) (jid : String) :
    List (String × DownloadJob) :=
  a.filter (fun p => p.1 != jid)

/-- `JobManager._handle_job_failed`: read `job_id` and `error` from the
payload; if the job resolves, record the error, bump `retry_count`, then
either re-queue as `QUEUED` (retry) or finish as `FAILED` with
`completed_at = now`; persist; drop from `active_jobs`. -/
def handle_job_failed (st : JMState) (jid? : Option String)
    (err : Option String) (now : PyDateTime) : JMState :=
  match jid? with
  | none => st
  | some jid =>
    if jid = "" then st
    else
      match get_job st jid with
      | none => st
      | some job =>
        let job1 : DownloadJob :=
          { job with error := err, retry_count := job.retry_count + 1 }
        if job1.retry_count < job1.max_retries then
          let job2 : DownloadJob := { job1 with status := JobStatus.queued }
          { store := store_job st.store job2
            queue := zadd st.queue job2.id job2.priority
            active := drop_active st.active jid }
        else
          let job2 : DownloadJob :=
            { job1 with status := JobStatus.failed, completed_at := some now }
          { store := store_job st.store job2
            queue := st.queue
            active := drop_active st.active jid }

/-- `JobManager._handle_job_completed`: only a job currently in the
in-memory `active_jobs` dict is updated (to `COMPLETED`, `completed_at`
set, progress forced to `100.0`), persisted, and dropped from the dict. -/
def handle_job_completed (st : JMState) (jid? : Option String)
    (now : PyDateTime) : JMState :=
  match jid? with
  | none => st
  | some jid =>
    if jid = "" then st
    else
      match List.lookup jid st.active with
      | none => st
      | some job =>
        let job2 : DownloadJob :=
          { job with status := JobStatus.completed
                     completed_at := some now
                     progress := 100 }
        { store := store_job st.store job2
          queue := st.queue
          active := drop_active st.active jid }

theorem lookup_drop_active (a : List (String × DownloadJob)) (jid : String) :
    List.lookup jid (drop_active a jid) = none := by
  induction a with
  | nil => rfl
  | cons p rest ih =>
    by_cases h : p.1 = jid
    · simp [drop_active, h] at ih ⊢
      exact ih
    · have hb : (p.1 != jid) = true := by simpa using h
      have hb2 : (jid == p.1) = false := by
        simp [BEq.beq]
        exact fun hc => h hc.symm
      simp [drop_active, hb, List.lookup, hb2] at ih ⊢
      exact ih

/-! ### Claims C3, C1, C6 -/

/-- Claim C3: handling a `job_failed` message increments `retry_count` by
one; if the incremented count is below `max_retries` the job transitions
to `QUEUED` and is re-added to the priority queue, otherwise it
transitions to `FAILED` with `completed_at` set and the payload error
recorded, and the updated record is persisted. -/
theorem c3_job_failed_retry_or_fail (st : JMState) (jid : String)
    (e : Option String) (now : PyDateTime) (job : DownloadJob)
    (hget : get_job st jid = some job) (hid : job.id = jid) (hjid : jid ≠ "") :
    ∃ j', load_job (handle_job_failed st (some jid) e now).store jid = some j' ∧
      j'.retry_count = job.retry_count + 1 ∧
      j'.error = e ∧
      (job.retry_count + 1 < job.max_retries →
        j'.status = JobStatus.queued ∧
        zmember (handle_job_failed st (some jid) e now).queue jid = true) ∧
      (¬ job.retry_count + 1 < job.max_retries →
        j'.status = JobStatus.failed ∧ j'.completed_at = some now) := by
  subst hid
  by_cases hlt : job.retry_count + 1 < job.max_retries
  · have hred : handle_job_failed st (some job.id) e now =
        { store := store_job st.store
            { job with error := e, retry_count := job.retry_count + 1,
                       status := JobStatus.queued }
          queue := zadd st.queue job.id job.priority
          active := drop_active st.active job.id } := by
      simp [handle_job_failed, hjid, hget, hlt]
    let job2 : DownloadJob :=
      { job with error := e, retry_count := job.retry_count + 1,
                 status := JobStatus.queued }
    refine ⟨job2, ?_, rfl, rfl, fun _ => ⟨rfl, ?_⟩, fun hn => absurd hlt hn⟩
    · rw [hred]
      exact load_job_store_job st.store _
    · rw [hred]
      exact zmember_zadd_self st.queue job.id job.priority
  · have hred : handle_job_failed st (some job.id) e now =
        { store := store_job st.store
            { job with error := e, retry_count := job.retry_count + 1,
                       status := JobStatus.failed, completed_at := some now }
          queue := st.queue
          active := drop_active st.active job.id } := by
      simp [handle_job_failed, hjid, hget, hlt]
    let job2 : DownloadJob :=
      { job with error := e, retry_count := job.retry_count + 1,
                 status := JobStatus.failed, completed_at := some now }
    refine ⟨job2, ?_, rfl, rfl, fun hc => absurd hc hlt, fun _ => ⟨rfl, rfl⟩⟩
    rw [hred]
    exact load_job_store_job st.store _

def w_created : PyDateTime := ⟨"2024-01-01T00:00:00", by decide⟩

def w_now : PyDateTime := ⟨"2024-01-02T03:04:05", by decide⟩

def w_job : DownloadJob where
  id := "job_1"
  urls := ["https://example.com/v"]
  config := Json.obj []
  status := JobStatus.running
  priority := 1
  created_at := w_created
  started_at := none
  completed_at := none
  progress := 0
  error := none
  retry_count := 0
  max_retries := 3
  resume_data := none

def w_state : JMState where
  store := []
  queue := []
  active := [("job_1", w_job)]

/-- Witness for claim C3 at a concrete running job with
`retry_count = 0 < 3 = max_retries`. -/
theorem c3_witness :
    ∃ j', load_job (handle_job_failed w_state (some "job_1") (some "boom")
        w_now).store "job_1" = some j' ∧
      j'.retry_count = w_job.retry_count + 1 ∧
      j'.error = some "boom" ∧
      (w_job.retry_count + 1 < w_job.max_retries →
        j'.status = JobStatus.queued ∧
        zmember (handle_job_failed w_state (some "job_1") (some "boom")
          w_now).queue "job_1" = true) ∧
      (¬ w_job.retry_count + 1 < w_job.max_retries →
        j'.status = JobStatus.failed ∧ j'.completed_at = some w_now) :=
  c3_job_failed_retry_or_fail w_state "job_1" (some "boom") w_now w_job
    rfl rfl (by decide)

def c1_job : DownloadJob where
  id := "job_c1"
  urls := ["https://example.com/a"]
  config := Json.obj []
  status := JobStatus.cancelled
  priority := 2
  created_at := w_created
  started_at := none
  completed_at := some w_now
  progress := 0
  error := none
  retry_count := 0
  max_retries := 3
  resume_data := none

def c1_state : JMState where
  store := store_job [] c1_job
  queue := []
  active := []

/-- Claim C1 is violated by the code: `_handle_job_failed` has no
terminal-state guard, so a `job_failed` message delivered for a job that
is already `CANCELLED` (with `retry_count = 0 < max_retries = 3`)
increments `retry_count`, transitions the job back to `QUEUED`, and
re-adds it to the priority queue. -/
theorem c1_terminal_state_violated :
    get_job c1_state "job_c1" = some c1_job ∧
    c1_job.status = JobStatus.cancelled ∧
    (load_job (handle_job_failed c1_state (some "job_c1") (some "boom")
        w_now).store "job_c1").map (fun j => j.status) =
      some JobStatus.queued ∧
    (load_job (handle_job_failed c1_state (some "job_c1") (some "boom")
        w_now).store "job_c1").map (fun j => j.retry_count) = some 1 ∧
    zmember (handle_job_failed c1_state (some "job_c1") (some "boom")
        w_now).queue "job_c1" = true :=
  ⟨rfl, rfl, rfl, rfl, rfl⟩

def c6_job : DownloadJob where
  id := "job_c6"
  urls := ["https://example.com/b"]
  config := Json.obj []
  status := JobStatus.running
  priority := 1
  created_at := w_created
  started_at := some w_created
  completed_at := none
  progress := 0
  error := none
  retry_count := 0
  max_retries := 3
  resume_data := none

def c6_state : JMState where
  store := store_job [] c6_job
  queue := []
  active := []

/-- Claim C6 as stated is false: a job that is present in the durable
store but not in the in-memory `active_jobs` dict is left completely
untouched by `_handle_job_completed` — its status stays `RUNNING` and its
progress stays `0` instead of being forced to `100`. -/
theorem c6_counterexample :
    load_job c6_state.store "job_c6" = some c6_job ∧
    handle_job_completed c6_state (some "job_c6") w_now = c6_state ∧
    (load_job (handle_job_completed c6_state (some "job_c6") w_now).store
        "job_c6").map (fun j => j.status) = some JobStatus.running ∧
    (load_job (handle_job_completed c6_state (some "job_c6") w_now).store
        "job_c6").map (fun j => j.progress) = some 0 :=
  ⟨rfl, rfl, rfl, rfl⟩

/-- Claim C6 amended: for every job present in the manager's in-memory
`active_jobs` map, handling `job_completed` transitions it to
`COMPLETED`, sets `completed_at`, forces progress to exactly `100`,
persists the record to the durable store, and removes it from the map. -/
theorem c6_completed_forces_progress (st : JMState) (jid : String)
    (now : PyDateTime) (job : DownloadJob)
    (hact : List.lookup jid st.active = some job) (hid : job.id = jid)
    (hjid : jid ≠ "") :
    load_job (handle_job_completed st (some jid) now).store jid =
      some { job with status := JobStatus.completed,
                      completed_at := some now, progress := 100 } ∧
    List.lookup jid (handle_job_completed st (some jid) now).active = none := by
  subst hid
  have hred : handle_job_completed st (some job.id) now =
      { store := store_job st.store
          { job with status := JobStatus.completed,
                     completed_at := some now, progress := 100 }
        queue := st.queue
        active := drop_active st.active job.id } := by
    simp [handle_job_completed, hjid, hact]
  refine ⟨?_, ?_⟩
  · rw [hred]
    exact load_job_store_job st.store _
  · rw [hred]
    exact lookup_drop_active st.active job.id

/-- Witness for the amended claim C6 at a concrete active running job. -/
theorem c6_witness :
    load_job (handle_job_completed w_state (some "job_1") w_now).store
        "job_1" =
      some { w_job with status := JobStatus.completed,
                        completed_at := some w_now, progress := 100 } ∧
    List.lookup "job_1"
        (handle_job_completed w_state (some "job_1") w_now).active = none :=
  c6_completed_forces_progress w_state "job_1" w_now w_job rfl rfl (by decide)

/-- Claim C8: a job record stored to the durable store and reloaded under
its id yields an identical record for all fields, including the nested
configuration, optional timestamps, progress, error, retry counters and
resume_data. -/
theorem c8_store_load_round_trip (s : Store) (j : DownloadJob) :
    load_job (store_job s j) j.id = some j :=
  load_job_store_job s j

/-! ### Download worker

`services/download-worker/app.py`. A worker expands a `job_created`
payload into tasks with deterministic ids, processes them sequentially,
and publishes bus messages. The external fetch engine (`yt_dlp`) is an
oracle `fetch : task id → Option String` returning `none` on success and
`some errMsg` when `extract_info` raises. Published messages are recorded
by type, subject id (`job_id` for job messages, task id for download
messages) and error payload.
-/

/-- A `DownloadTask` as built by `_handle_job_created` (the fields the
orchestration logic reads). -/
structure WTask where
  tid : String
  job_id : String
  url : String

/-- A published bus message: type, subject id and optional error payload. -/
structure WMsg where
  mtype : MessageType
  mid : String
  merr : Option String
deriving DecidableEq, Repr

/-- `task_id = f"{job_id}_task_{i}"`. -/
def task_id (job_id : String) (i : ℕ) : String :=
  job_id ++ "_task_" ++ Nat.repr i

/-- `for i, url in enumerate(urls)` starting at index `i`. -/
def expand_tasks_from (job_id : String) : ℕ → List String → List WTask
  | _, [] => []
  | i, u :: rest => ⟨task_id job_id i, job_id, u⟩ :: expand_tasks_from job_id (i + 1) rest

/-- Task expansion in `_handle_job_created`. -/
def expand_tasks (job_id : String) (urls : List String) : List WTask :=
  expand_tasks_from job_id 0 urls

/-- One task's processing inside `_process_job`'s loop: consult resume
data (`_load_resume_data`, here the set of task ids holding resume data);
with resume data take `_resume_download` (publishes `download_resume`,
clears resume data on success), otherwise `_download_task` (publishes
`download_started`, saves resume data on failure). A failure raises and
is caught by `_process_job`, which publishes `download_failed`. Returns
the published messages, the task's final status, and the resume set. -/
def run_task (res : List String) (outcome : Option String) (t : WTask) :
    List WMsg × JobStatus × List String :=
  if res.contains t.tid then
    match outcome with
    | none =>
      ([⟨MessageType.download_resume, t.tid, none⟩,
        ⟨MessageType.download_completed, t.tid, none⟩],
       JobStatus.completed, res.filter (fun x => x != t.tid))
    | some msg =>
      ([⟨MessageType.download_resume, t.tid, none⟩,
        ⟨MessageType.download_failed, t.tid, some msg⟩],
       JobStatus.failed, res)
  else
    match outcome with
    | none =>
      ([⟨MessageType.download_started, t.tid, none⟩,
        ⟨MessageType.download_completed, t.tid, none⟩],
       JobStatus.completed, res)
    | some msg =>
      ([⟨MessageType.download_started, t.tid, none⟩,
        ⟨MessageType.download_failed, t.tid, some msg⟩],
       JobStatus.failed, t.tid :: res)

/-- Result of `_process_job`'s task loop. -/
structure TasksResult where
  msgs : List WMsg
  completed : ℕ
  resume_after : List String
  statuses : List JobStatus

/-- `_process_job`'s `for task in tasks` loop: run each task, count the
ones whose final status is `COMPLETED`, publish `job_progress` after each
completed task. -/
def process_tasks (job_id : String) (fetch : String → Option String) :
    List WTask → List String → TasksResult
  | [], res => ⟨[], 0, res, []⟩
  | t :: rest, res =>
    let r1 := run_task res (fetch t.tid) t
    let r2 := process_tasks job_id fetch rest r1.2.2
    if r1.2.1 = JobStatus.completed then
      ⟨r1.1 ++ [⟨MessageType.job_progress, job_id, none⟩] ++ r2.msgs,
       r2.completed + 1, r2.resume_after, r1.2.1 :: r2.statuses⟩
    else
      ⟨r1.1 ++ r2.msgs, r2.completed, r2.resume_after, r1.2.1 :: r2.statuses⟩

/-- `DownloadWorker._process_job`: publish `job_started`, run the task
loop, then publish exactly one terminal message — `job_completed` when
`completed_tasks == total_tasks`, else `job_failed` carrying
`f"Completed {completed_tasks}/{total_tasks} tasks"`. -/
def process_job (fetch : String → Option String) (job_id : String)
    (tasks : List WTask) (res : List String) : List WMsg × List String :=
  let r := process_tasks job_id fetch tasks res
  let terminal : WMsg :=
    if r.completed = tasks.length then
      ⟨MessageType.job_completed, job_id, none⟩
    else
      ⟨MessageType.job_failed, job_id,
       some ("Completed " ++ Nat.repr r.completed ++ "/" ++
             Nat.repr tasks.length ++ " tasks")⟩
  (⟨MessageType.job_started, job_id, none⟩ :: (r.msgs ++ [terminal]), r.resume_after)

/-- `DownloadWorker._handle_job_created`: guard `if job_id and urls`, then
expand and process. -/
def handle_job_created (fetch : String → Option String) (job_id : String)
    (urls : List String) (res : List String) : List WMsg × List String :=
  if job_id ≠ "" ∧ urls ≠ [] then
    process_job fetch job_id (expand_tasks job_id urls) res
  else
    ([], res)

/-- Repeated delivery of the same `job_created` message, one fetch oracle
per delivery, threading the worker's resume-data state. -/
def deliver_repeatedly (job_id : String) (urls : List String) :
    List (String → Option String) → List String → List WMsg × List String
  | [], res => ([], res)
  | f :: fs, res =>
    let r1 := handle_job_created f job_id urls res
    let r2 := deliver_repeatedly job_id urls fs r1.2
    (r1.1 ++ r2.1, r2.2)

/-- The task ids carried by `download_started` messages, in publication
order. -/
def started_ids (msgs : List WMsg) : List String :=
  (msgs.filter (fun m => m.mtype == MessageType.download_started)).map
    (fun m => m.mid)

/-! ### Claim C7: one terminal job message per processed job -/

/-- Terminal job-level messages. -/
def is_terminal (m : WMsg) : Bool :=
  m.mtype == MessageType.job_completed || m.mtype == MessageType.job_failed

theorem run_task_no_terminal (res : List String) (o : Option String) (t : WTask) :
    (run_task res o t).1.filter is_terminal = [] := by
  unfold run_task
  by_cases h : res.contains t.tid
  · rw [if_pos h]
    cases o <;> rfl
  · rw [if_neg h]
    cases o <;> rfl

theorem process_tasks_no_terminal (job_id : String)
    (fetch : String → Option String) :
    ∀ (tasks : List WTask) (res : List String),
      (process_tasks job_id fetch tasks res).msgs.filter is_terminal = [] := by
  intro tasks
  induction tasks with
  | nil => intro res; rfl
  | cons t rest ih =>
    intro res
    simp only [process_tasks]
    by_cases hc : (run_task res (fetch t.tid) t).2.1 = JobStatus.completed
    · rw [if_pos hc]
      show ((run_task res (fetch t.tid) t).1 ++
        [WMsg.mk MessageType.job_progress job_id none] ++
        (process_tasks job_id fetch rest
          (run_task res (fetch t.tid) t).2.2).msgs).filter is_terminal = []
      rw [List.filter_append, List.filter_append, run_task_no_terminal, ih]
      rfl
    · rw [if_neg hc]
      show ((run_task res (fetch t.tid) t).1 ++
        (process_tasks job_id fetch rest
          (run_task res (fetch t.tid) t).2.2).msgs).filter is_terminal = []
      rw [List.filter_append, run_task_no_terminal, ih]
      rfl

theorem process_tasks_completed_count (job_id : String)
    (fetch : String → Option String) :
    ∀ (tasks : List WTask) (res : List String),
      (process_tasks job_id fetch tasks res).completed =
        ((process_tasks job_id fetch tasks res).statuses.filter
          (fun s => s == JobStatus.completed)).length := by
  intro tasks
  induction tasks with
  | nil => intro res; rfl
  | cons t rest ih =>
    intro res
    by_cases hc : (run_task res (fetch t.tid) t).2.1 = JobStatus.completed
    · simp [process_tasks, hc, ih]
    · simp [process_tasks, hc, ih]

theorem process_tasks_statuses_length (job_id : String)
    (fetch : String → Option String) :
    ∀ (tasks : List WTask) (res : List String),
      (process_tasks job_id fetch tasks res).statuses.length = tasks.length := by
  intro tasks
  induction tasks with
  | nil => intro res; rfl
  | cons t rest ih =>
    intro res
    by_cases hc : (run_task res (fetch t.tid) t).2.1 = JobStatus.completed
    · simp [process_tasks, hc, ih]
    · simp [process_tasks, hc, ih]

/-- Claim C7: for every job processed by the worker, exactly one of
`job_completed` / `job_failed` is published; it is `job_completed`
precisely when every task finished with status `COMPLETED`, and otherwise
`job_failed` carries an error naming how many of the N tasks succeeded. -/
theorem c7_one_terminal_message (fetch : String → Option String)
    (job_id : String) (tasks : List WTask) (res : List String) :
    ((process_job fetch job_id tasks res).1.filter is_terminal).length = 1 ∧
    ((∀ s ∈ (process_tasks job_id fetch tasks res).statuses,
        s = JobStatus.completed) →
      (process_job fetch job_id tasks res).1.filter is_terminal =
        [⟨MessageType.job_completed, job_id, none⟩]) ∧
    (¬ (∀ s ∈ (process_tasks job_id fetch tasks res).statuses,
        s = JobStatus.completed) →
      (process_job fetch job_id tasks res).1.filter is_terminal =
        [⟨MessageType.job_failed, job_id,
          some ("Completed " ++
            Nat.repr (((process_tasks job_id fetch tasks res).statuses.filter
              (fun s => s == JobStatus.completed)).length) ++ "/" ++
            Nat.repr tasks.length ++ " tasks")⟩]) := by
  have hall : (∀ s ∈ (process_tasks job_id fetch tasks res).statuses,
      s = JobStatus.completed) ↔
      (process_tasks job_id fetch tasks res).completed = tasks.length := by
    rw [process_tasks_completed_count job_id fetch tasks res]
    rw [← process_tasks_statuses_length job_id fetch tasks res]
    rw [List.filter_length_eq_length]
    constructor
    · intro h s hs
      simp [h s hs]
    · intro h s hs
      simpa using h s hs
  have hfilter : ∀ (t : WMsg), is_terminal t = true →
      (process_job fetch job_id tasks res).1.filter is_terminal = [t] →
      True := fun _ _ _ => trivial
  by_cases hc : (process_tasks job_id fetch tasks res).completed = tasks.length
  · have hred : (process_job fetch job_id tasks res).1.filter is_terminal =
        [⟨MessageType.job_completed, job_id, none⟩] := by
      simp [process_job, hc, List.filter_append,
        process_tasks_no_terminal, is_terminal]
    refine ⟨by rw [hred]; rfl, fun _ => hred, fun hn => absurd (hall.2 hc) hn⟩
  · have hred : (process_job fetch job_id tasks res).1.filter is_terminal =
        [⟨MessageType.job_failed, job_id,
          some ("Completed " ++
            Nat.repr ((process_tasks job_id fetch tasks res).completed) ++
            "/" ++ Nat.repr tasks.length ++ " tasks")⟩] := by
      simp [process_job, hc, List.filter_append,
        process_tasks_no_terminal, is_terminal]
    rw [process_tasks_completed_count job_id fetch tasks res] at hred
    refine ⟨by rw [hred]; rfl, fun hs => absurd (hall.1 hs) hc, fun _ => hred⟩

/-! ### Claim C2: deterministic, idempotent task expansion -/

theorem started_ids_append (a b : List WMsg) :
    started_ids (a ++ b) = started_ids a ++ started_ids b := by
  simp [started_ids, List.filter_append]

theorem task_id_inj (jid : String) (i j : ℕ) (h : task_id jid i = task_id jid j) :
    i = j := by
  have hd := congrArg String.data h
  simp only [task_id, String.data_append, List.append_assoc] at hd
  exact nat_repr_injective
    (String.ext (List.append_cancel_left (List.append_cancel_left hd)))

theorem expand_from_ids (jid : String) :
    ∀ (urls : List String) (i : ℕ),
      (expand_tasks_from jid i urls).map (fun t => t.tid) =
        (List.range' i urls.length).map (task_id jid) := by
  intro urls
  induction urls with
  | nil => intro i; rfl
  | cons u rest ih =>
    intro i
    rw [List.length_cons, List.range'_succ]
    simp [expand_tasks_from, ih]

theorem expand_ids_nodup (jid : String) (urls : List String) :
    ((expand_tasks jid urls).map (fun t => t.tid)).Nodup := by
  rw [expand_tasks, expand_from_ids]
  exact (List.nodup_range' 0 urls.length).map
    (fun a b hab => task_id_inj jid a b hab)

theorem expand_length (jid : String) (urls : List String) :
    ((expand_tasks jid urls).map (fun t => t.tid)).length = urls.length := by
  rw [expand_tasks, expand_from_ids]
  simp

theorem mem_expand (jid : String) (urls : List String) (t : WTask)
    (ht : t ∈ expand_tasks jid urls) :
    ∃ k, k < urls.length ∧ t.tid = task_id jid k := by
  have hm : t.tid ∈ (expand_tasks jid urls).map (fun t => t.tid) :=
    List.mem_map_of_mem _ ht
  rw [expand_tasks, expand_from_ids] at hm
  obtain ⟨k, hk, heq⟩ := List.mem_map.1 hm
  obtain ⟨m, hm2, hkm⟩ := List.mem_range'.1 hk
  refine ⟨k, ?_, heq.symm⟩
  omega

theorem run_task_started (res : List String) (o : Option String) (t : WTask) :
    started_ids (run_task res o t).1 =
      if res.contains t.tid then [] else [t.tid] := by
  unfold run_task
  by_cases h : res.contains t.tid
  · rw [if_pos h, if_pos h]
    cases o <;> rfl
  · rw [if_neg h, if_neg h]
    cases o <;> rfl

theorem run_task_res_mem (res : List String) (o : Option String) (t : WTask)
    (x : String) (hx : x ∈ (run_task res o t).2.2) : x ∈ res ∨ x = t.tid := by
  unfold run_task at hx
  by_cases h : res.contains t.tid
  · rw [if_pos h] at hx
    cases o with
    | none => exact Or.inl (List.mem_filter.1 hx).1
    | some e => exact Or.inl hx
  · rw [if_neg h] at hx
    cases o with
    | none => exact Or.inl hx
    | some e =>
      rcases List.mem_cons.1 hx with heq | hin
      · exact Or.inr heq
      · exact Or.inl hin

theorem started_subset (jid : String) (fetch : String → Option String) :
    ∀ (tasks : List WTask) (res : List String) (x : String),
      x ∈ started_ids (process_tasks jid fetch tasks res).msgs →
      x ∈ tasks.map (fun t => t.tid) := by
  intro tasks
  induction tasks with
  | nil =>
    intro res x hx
    simp [process_tasks, started_ids] at hx
  | cons t rest ih =>
    intro res x hx
    simp only [process_tasks] at hx
    have hxin : x ∈ started_ids (run_task res (fetch t.tid) t).1 ∨
        x ∈ started_ids
          (process_tasks jid fetch rest (run_task res (fetch t.tid) t).2.2).msgs := by
      by_cases hc : (run_task res (fetch t.tid) t).2.1 = JobStatus.completed
      · rw [if_pos hc] at hx
        rw [started_ids_append, started_ids_append] at hx
        rcases List.mem_append.1 hx with hl | hr
        · rcases List.mem_append.1 hl with ha | hb
          · exact Or.inl ha
          · exact absurd hb (by intro hc2; simp [started_ids] at hc2)
        · exact Or.inr hr
      · rw [if_neg hc] at hx
        rw [started_ids_append] at hx
        exact List.mem_append.1 hx
    rcases hxin with h1 | h2
    · rw [run_task_started] at h1
      by_cases h : res.contains t.tid
      · rw [if_pos h] at h1
        exact absurd h1 (List.not_mem_nil x)
      · rw [if_neg h] at h1
        have : x = t.tid := List.mem_singleton.1 h1
        rw [this]
        exact List.mem_map_of_mem _ (List.mem_cons_self t rest)
    · exact List.mem_cons_of_mem _ (ih _ x h2)

theorem started_full (jid : String) (fetch : String → Option String) :
    ∀ (tasks : List WTask) (res : List String),
      ((tasks.map (fun t => t.tid)).Nodup) →
      (∀ t ∈ tasks, t.tid ∉ res) →
      started_ids (process_tasks jid fetch tasks res).msgs =
        tasks.map (fun t => t.tid) := by
  intro tasks
  induction tasks with
  | nil => intro res _ _; rfl
  | cons t rest ih =>
    intro res hnd hfr
    have ht : t.tid ∉ res := hfr t (List.mem_cons_self t rest)
    have hcontains : res.contains t.tid = false := by
      simp [List.contains, ht]
    have hnd2 : (t.tid :: rest.map (fun t => t.tid)).Nodup := by
      rw [List.map_cons] at hnd
      exact hnd
    have hnds : (rest.map (fun t => t.tid)).Nodup ∧
        t.tid ∉ rest.map (fun t => t.tid) := by
      have h0 := List.nodup_cons.1 hnd2
      exact ⟨h0.2, h0.1⟩
    have hrest : ∀ t' ∈ rest, t'.tid ∉ (run_task res (fetch t.tid) t).2.2 := by
      intro t' ht' hmem
      rcases run_task_res_mem res (fetch t.tid) t t'.tid hmem with hin | heq
      · exact hfr t' (List.mem_cons_of_mem t ht') hin
      · exact hnds.2 (heq ▸ List.mem_map_of_mem _ ht')
    have hhead : started_ids (run_task res (fetch t.tid) t).1 = [t.tid] := by
      rw [run_task_started, hcontains]
      rfl
    have htail := ih (run_task res (fetch t.tid) t).2.2 hnds.1 hrest
    simp only [process_tasks]
    by_cases hc : (run_task res (fetch t.tid) t).2.1 = JobStatus.completed
    · rw [if_pos hc]
      show started_ids ((run_task res (fetch t.tid) t).1 ++
        [WMsg.mk MessageType.job_progress jid none] ++
        (process_tasks jid fetch rest
          (run_task res (fetch t.tid) t).2.2).msgs) = _
      rw [started_ids_append, started_ids_append, hhead, htail]
      rfl
    · rw [if_neg hc]
      show started_ids ((run_task res (fetch t.tid) t).1 ++
        (process_tasks jid fetch rest
          (run_task res (fetch t.tid) t).2.2).msgs) = _
      rw [started_ids_append, hhead, htail]
      rfl

theorem started_process_job (fetch : String → Option String) (jid : String)
    (tasks : List WTask) (res : List String) :
    started_ids (process_job fetch jid tasks res).1 =
      started_ids (process_tasks jid fetch tasks res).msgs := by
  unfold process_job
  by_cases hc : (process_tasks jid fetch tasks res).completed = tasks.length <;>
    simp [hc, started_ids, List.filter_append]

theorem deliver_cons (jid : String) (urls : List String)
    (f : String → Option String) (fs : List (String → Option String))
    (res : List String) :
    (deliver_repeatedly jid urls (f :: fs) res).1 =
      (handle_job_created f jid urls res).1 ++
      (deliver_repeatedly jid urls fs (handle_job_created f jid urls res).2).1 :=
  rfl

theorem deliver_subset (jid : String) (urls : List String) :
    ∀ (fs : List (String → Option String)) (res : List String) (x : String),
      x ∈ started_ids (deliver_repeatedly jid urls fs res).1 →
      x ∈ (expand_tasks jid urls).map (fun t => t.tid) := by
  intro fs
  induction fs with
  | nil =>
    intro res x hx
    simp [deliver_repeatedly, started_ids] at hx
  | cons f fs ih =>
    intro res x hx
    rw [deliver_cons, started_ids_append] at hx
    rcases List.mem_append.1 hx with h1 | h2
    · unfold handle_job_created at h1
      by_cases hg : jid ≠ "" ∧ urls ≠ []
      · rw [if_pos hg] at h1
        rw [started_process_job] at h1
        exact started_subset jid f (expand_tasks jid urls) res x h1
      · rw [if_neg hg] at h1
        simp [started_ids] at h1
    · exact ih _ x h2

theorem dedup_length_of_append_subset (ids extra : List String)
    (hnd : ids.Nodup) (hsub : ∀ x ∈ extra, x ∈ ids) :
    ((ids ++ extra).dedup).length = ids.length := by
  have hset : (ids ++ extra).toFinset = ids.toFinset := by
    ext a
    simp only [List.toFinset_append, Finset.mem_union, List.mem_toFinset]
    constructor
    · intro h
      rcases h with h | h
      · exact h
      · exact hsub a h
    · intro h
      exact Or.inl h
  calc ((ids ++ extra).dedup).length = (ids ++ extra).toFinset.card :=
        (List.card_toFinset _).symm
  _ = ids.toFinset.card := by rw [hset]
  _ = ids.length := List.toFinset_card_of_nodup hnd

/-- Claim C2: task identifiers are derived deterministically from
`(job_id, index)`, and over any number `k ≥ 1` of deliveries of the same
`job_created` message for a freshly created job with `N` urls, the set of
distinct task ids ever published under `download_started` has exactly
`N` elements. -/
theorem c2_idempotent_expansion (jid : String) (urls : List String)
    (fs : List (String → Option String)) (res0 : List String)
    (hjid : jid ≠ "") (hurls : urls ≠ []) (hfs : fs ≠ [])
    (hfresh : ∀ i, i < urls.length → task_id jid i ∉ res0) :
    (expand_tasks jid urls).map (fun t => t.tid) =
      (List.range' 0 urls.length).map (task_id jid) ∧
    ((started_ids (deliver_repeatedly jid urls fs res0).1).dedup).length =
      urls.length := by
  refine ⟨expand_from_ids jid urls 0, ?_⟩
  obtain ⟨f, fs2, rfl⟩ : ∃ f fs2, fs = f :: fs2 := by
    cases fs with
    | nil => exact absurd rfl hfs
    | cons a b => exact ⟨a, b, rfl⟩
  have hfr : ∀ t ∈ expand_tasks jid urls, t.tid ∉ res0 := by
    intro t ht
    obtain ⟨k, hk, heq⟩ := mem_expand jid urls t ht
    rw [heq]
    exact hfresh k hk
  have hnd : ((expand_tasks jid urls).map (fun t => t.tid)).Nodup :=
    expand_ids_nodup jid urls
  have hfirst : started_ids (handle_job_created f jid urls res0).1 =
      (expand_tasks jid urls).map (fun t => t.tid) := by
    unfold handle_job_created
    rw [if_pos ⟨hjid, hurls⟩, started_process_job]
    exact started_full jid f (expand_tasks jid urls) res0 hnd hfr
  rw [deliver_cons, started_ids_append, hfirst]
  rw [dedup_length_of_append_subset _ _ hnd
    (fun x hx => deliver_subset jid urls fs2 _ x hx)]
  exact expand_length jid urls

def fetch_ok : String → Option String := fun _ => none

/-- Witness for claim C2: a two-url job delivered once. -/
theorem c2_witness :
    (expand_tasks "jobw" ["https://a", "https://b"]).map (fun t => t.tid) =
      (List.range' 0 (["https://a", "https://b"] : List String).length).map
        (task_id "jobw") ∧
    ((started_ids (deliver_repeatedly "jobw" ["https://a", "https://b"]
        [fetch_ok] []).1).dedup).length =
      (["https://a", "https://b"] : List String).length :=
  c2_idempotent_expansion "jobw" ["https://a", "https://b"] [fetch_ok] []
    (by decide) (by decide) (List.cons_ne_nil _ _) (by decide)

/-- Witness for claim C7: a two-task job in which every fetch succeeds
publishes exactly the `job_completed` terminal message. -/
theorem c7_witness :
    (process_job fetch_ok "jobw2" (expand_tasks "jobw2" ["https://c", "https://d"])
        []).1.filter is_terminal =
      [⟨MessageType.job_completed, "jobw2", none⟩] :=
  (c7_one_terminal_message fetch_ok "jobw2"
    (expand_tasks "jobw2" ["https://c", "https://d"]) []).2.1 (by decide)

/-! ### Claim C4: retry backoff

`youtube_downloader/core/downloader.py` `_calculate_retry_delay`. The
real-valued arithmetic is modelled over `ℚ`; `random.uniform(0.5, 1.5)`
becomes an explicit `jitter` parameter constrained to `[1/2, 3/2]`.
-/

/-- `base_delay = 5 if is_live else 2`. -/
def base_delay (is_live : Bool) : ℚ := if is_live then 5 else 2

/-- `max_delay = 300`. -/
def max_delay : ℚ := 300

/-- `delay = base_delay * (2 ** retry_count); delay *= jitter`. -/
def uncapped_delay (retry_count : ℕ) (is_live : Bool) (jitter : ℚ) : ℚ :=
  base_delay is_live * 2 ^ retry_count * jitter

/-- `_calculate_retry_delay`: the jittered exponential delay capped at
`max_delay`. -/
def calculate_retry_delay (retry_count : ℕ) (is_live : Bool) (jitter : ℚ) : ℚ :=
  min (uncapped_delay retry_count is_live jitter) max_delay

/-- Claim C4 as stated is false: the sampled delay is not non-decreasing
in the attempt number, because jitter draws are independent. Attempt 0
with jitter 3/2 yields delay 3, attempt 1 with jitter 1/2 yields delay 2,
both jitters lying in the permitted range `[1/2, 3/2]`. -/
theorem c4_counterexample :
    ((1 : ℚ)/2 ≤ (3 : ℚ)/2 ∧ (3 : ℚ)/2 ≤ (3 : ℚ)/2) ∧
    ((1 : ℚ)/2 ≤ (1 : ℚ)/2 ∧ (1 : ℚ)/2 ≤ (3 : ℚ)/2) ∧
    calculate_retry_delay 1 false ((1 : ℚ)/2) <
      calculate_retry_delay 0 false ((3 : ℚ)/2) := by
  norm_num [calculate_retry_delay, uncapped_delay, base_delay, max_delay]

/-- Claim C4 amended: for every attempt `n` and jitter in `[1/2, 3/2]`,
the delay before capping lies within `[base*2^n*(1/2), base*2^n*(3/2)]`,
the capped delay is bounded by 300, the capped delay is non-decreasing in
the attempt number for any fixed jitter value, and the live-stream base
delay (5) strictly exceeds the static base delay (2). -/
theorem c4_backoff_bounds (n : ℕ) (live : Bool) (j : ℚ)
    (h1 : 1/2 ≤ j) (h2 : j ≤ 3/2) :
    base_delay live * 2 ^ n * (1/2) ≤ uncapped_delay n live j ∧
    uncapped_delay n live j ≤ base_delay live * 2 ^ n * (3/2) ∧
    calculate_retry_delay n live j ≤ max_delay ∧
    calculate_retry_delay n live j ≤ calculate_retry_delay (n + 1) live j ∧
    base_delay false < base_delay true := by
  have hb : (0 : ℚ) < base_delay live := by
    cases live <;> norm_num [base_delay]
  have hp : (0 : ℚ) < 2 ^ n := by positivity
  have hbp : (0 : ℚ) ≤ base_delay live * 2 ^ n := by positivity
  have hj0 : (0 : ℚ) ≤ j := le_trans (by norm_num) h1
  refine ⟨?_, ?_, min_le_right _ _, ?_, by norm_num [base_delay]⟩
  · exact mul_le_mul_of_nonneg_left h1 hbp
  · exact mul_le_mul_of_nonneg_left h2 hbp
  · refine min_le_min ?_ (le_refl _)
    have h2n : (2 : ℚ) ^ n ≤ 2 ^ (n + 1) := by
      rw [pow_succ]
      nlinarith [hp]
    exact mul_le_mul_of_nonneg_right
      (mul_le_mul_of_nonneg_left h2n hb.le) hj0

/-- Witness for the amended claim C4 at attempt 0, static content,
jitter 1. -/
theorem c4_witness :
    base_delay false * 2 ^ 0 * (1/2) ≤ uncapped_delay 0 false 1 ∧
    uncapped_delay 0 false 1 ≤ base_delay false * 2 ^ 0 * (3/2) ∧
    calculate_retry_delay 0 false 1 ≤ max_delay ∧
    calculate_retry_delay 0 false 1 ≤ calculate_retry_delay (0 + 1) false 1 ∧
    base_delay false < base_delay true :=
  c4_backoff_bounds 0 false 1 (by norm_num) (by norm_num)

/-! ### Claim C5: resume data consultation

`services/download-worker/app.py` `_load_resume_data` and the
resume-or-cold-start branch of `_process_job`. The worker's in-memory
`resume_data` dict and the on-disk `.resume_<task_id>.json` side files
are modelled explicitly; the partial artifact sizes on disk are carried
in the filesystem model so that (non-)staleness is expressible.
-/

/-- `shared/models.py` `ResumeData` (the fields `_load_resume_data`
produces); `last_modified` is the POSIX `st_mtime` timestamp. -/
structure WResumeData where
  url : String
  file_path : String
  downloaded_bytes : Int
  last_modified : ℚ
deriving DecidableEq, Repr

/-- The worker's view of the filesystem: artifact sizes by path, and the
parsed contents of `.resume_<task_id>.json` side files by path. -/
structure FileSys where
  sizes : List (String × Int)
  resume_files : List (String × WResumeData)

/-- `self.download_dir / f".resume_{task_id}.json"`. -/
def resume_file_name (tid : String) : String :=
  "/app/downloads/.resume_" ++ tid ++ ".json"

/-- `DownloadWorker._load_resume_data`: in-memory dict first, then the
side file; whatever is found is returned as-is — the recorded
`file_path` is never compared against the artifacts on disk. -/
def load_resume_data (mem : List (String × WResumeData)) (fs : FileSys)
    (tid : String) : Option WResumeData :=
  match List.lookup tid mem with
  | some r => some r
  | none =>
    match List.lookup (resume_file_name tid) fs.resume_files with
    | some r => some r
    | none => none

/-- The `if resume_data: _resume_download else: _download_task` branch of
`_process_job` (`true` = resume path). -/
def resume_dispatch (r : Option WResumeData) : Bool := r.isSome

def stale_resume : WResumeData where
  url := "https://example.com/v"
  file_path := "/app/downloads/v.mp4"
  downloaded_bytes := 100
  last_modified := 0

def empty_fs : FileSys where
  sizes := []
  resume_files := []

/-- Claim C5 as stated is false: resume data recording 100 downloaded
bytes for a partial file that does not exist on disk at all is returned
by `_load_resume_data` and sends the task down the resume path — it is
not discarded and the task does not fall back to a cold start. -/
theorem c5_counterexample :
    load_resume_data [("job_1_task_0", stale_resume)] empty_fs
      "job_1_task_0" = some stale_resume ∧
    stale_resume.downloaded_bytes = 100 ∧
    List.lookup stale_resume.file_path empty_fs.sizes = none ∧
    resume_dispatch (load_resume_data [("job_1_task_0", stale_resume)]
      empty_fs "job_1_task_0") = true :=
  ⟨rfl, rfl, rfl, rfl⟩

/-- Claim C5 amended: before starting work the worker consults stored
resume data (memory first, then the side file) and resumes whenever any
is present, regardless of the partial file's existence or size; only when
neither source has resume data does the task cold-start. -/
theorem c5_resume_unconditional (mem : List (String × WResumeData))
    (fs : FileSys) (tid : String) :
    (∀ r, List.lookup tid mem = some r →
      load_resume_data mem fs tid = some r ∧
      resume_dispatch (load_resume_data mem fs tid) = true) ∧
    (∀ r, List.lookup tid mem = none →
      List.lookup (resume_file_name tid) fs.resume_files = some r →
      load_resume_data mem fs tid = some r ∧
      resume_dispatch (load_resume_data mem fs tid) = true) ∧
    (List.lookup tid mem = none →
      List.lookup (resume_file_name tid) fs.resume_files = none →
      load_resume_data mem fs tid = none ∧
      resume_dispatch (load_resume_data mem fs tid) = false) := by
  refine ⟨?_, ?_, ?_⟩
  · intro r hr
    constructor <;> simp [load_resume_data, hr, resume_dispatch]
  · intro r h1 h2
    constructor <;> simp [load_resume_data, h1, h2, resume_dispatch]
  · intro h1 h2
    constructor <;> simp [load_resume_data, h1, h2, resume_dispatch]

def side_fs : FileSys where
  sizes := []
  resume_files := [(resume_file_name "job_1_task_1", stale_resume)]

/-- Witness for the amended claim C5: with nothing in memory, resume data
persisted in the `.resume_<task_id>.json` side file is returned and
dispatches to the resume path. -/
theorem c5_witness :
    load_resume_data [] side_fs "job_1_task_1" = some stale_resume ∧
    resume_dispatch (load_resume_data [] side_fs "job_1_task_1") = true :=
  (c5_resume_unconditional [] side_fs "job_1_task_1").2.1 stale_resume rfl rfl

/-! ### Claim C9: handler registration order and failure isolation

`shared/messaging.py` `MessageQueue.subscribe` and the callback loop in
`MessageQueue._consume_messages`.
-/

/-- A `ServiceMessage` as rebuilt by `_consume_messages` before invoking
callbacks. -/
structure SMessage where
  message_id : String
  message_type : MessageType
  service : String
  timestamp : PyDateTime
  correlation_id : Option String
  payload : List (String × Json)

/-- A subscriber callback; `Except.error e` models the callback raising
an exception rendered as `e`. -/
def Handler := SMessage → Except String Unit

/-- The `self.subscribers` dict: message type to callback list. -/
def Subscribers := MessageType → Option (List Handler)

/-- `MessageQueue.subscribe`: create the type's entry if absent, then
append the callback. -/
def subscribe (subs : Subscribers) (mt : MessageType) (cb : Handler) :
    Subscribers :=
  fun t => if t = mt then some (((subs mt).getD []) ++ [cb]) else subs t

/-- One callback invocation under the `try/except` of
`_consume_messages`: an exception is caught and logged (`some e`),
success is `none`; either way the loop continues. -/
def callback_outcome (cb : Handler) (m : SMessage) : Option String :=
  match cb m with
  | Except.ok _ => none
  | Except.error e => some e

/-- The `for callback in self.subscribers[message_type]` loop of
`_consume_messages`, recording each callback's outcome in order. -/
def consume_callbacks : List Handler → SMessage → List (Option String)
  | [], _ => []
  | cb :: rest, m => callback_outcome cb m :: consume_callbacks rest m

/-- Claim C9: `subscribe` appends handlers in registration order, and
delivering one message invokes every registered handler in that order —
the i-th outcome is exactly the i-th handler applied to the message, so
an exception in an earlier handler never prevents a later handler from
being invoked. -/
theorem c9_handlers_in_order (subs : Subscribers) (mt : MessageType)
    (cb : Handler) (m : SMessage) (hs : List Handler) :
    (subscribe subs mt cb) mt = some (((subs mt).getD []) ++ [cb]) ∧
    (consume_callbacks hs m).length = hs.length ∧
    ∀ i : ℕ, (consume_callbacks hs m).get? i =
      (hs.get? i).map (fun c => callback_outcome c m) := by
  refine ⟨by simp [subscribe], ?_, ?_⟩
  · induction hs with
    | nil => rfl
    | cons c rest ih => simp [consume_callbacks, ih]
  · intro i
    induction hs generalizing i with
    | nil => simp [consume_callbacks]
    | cons c rest ih =>
      cases i with
      | zero => rfl
      | succ k =>
        simp only [consume_callbacks, List.get?_cons_succ]
        exact ih k

/-! ### Claim C10: queue write/read type consistency

`services/job-manager/app.py` `_queue_job` writes the `job_queue` key
with `zadd` (a sorted set), while `get_job_queue_length` reads the same
key with `llen` (a list-length operation). Redis values are typed per
key; a list operation against a sorted-set key raises `WRONGTYPE`.
-/

/-- A Redis value: string, list, or sorted set. -/
inductive RedisVal where
  | str (s : String)
  | list (l : List String)
  | zset (z : List (String × Int))

/-- The Redis keyspace with typed values. -/
abbrev RedisDB := List (String × RedisVal)

def db_lookup (db : RedisDB) (k : String) : Option RedisVal :=
  List.lookup k db

def wrongtype_msg : String :=
  "WRONGTYPE Operation against a key holding the wrong kind of value"

/-- `redis.zadd(key, member: score)`: creates a sorted set on a missing
key, updates an existing sorted set, raises `WRONGTYPE` otherwise. -/
def redis_zadd (db : RedisDB) (k member : String) (score : Int) :
    Except String RedisDB :=
  match db_lookup db k with
  | none => Except.ok ((k, RedisVal.zset [(member, score)]) :: db)
  | some (RedisVal.zset z) =>
    Except.ok ((k, RedisVal.zset (zadd z member score)) :: db)
  | some _ => Except.error wrongtype_msg

/-- `redis.llen(key)`: 0 on a missing key, the length of a list, and
`WRONGTYPE` on any other value type. -/
def redis_llen (db : RedisDB) (k : String) : Except String ℕ :=
  match db_lookup db k with
  | none => Except.ok 0
  | some (RedisVal.list l) => Except.ok l.length
  | some _ => Except.error wrongtype_msg

/-- `JobManager._queue_job`: `zadd("job_queue", {job.id: job.priority})`. -/
def queue_job_kv (db : RedisDB) (job_id : String) (priority : Int) :
    Except String RedisDB :=
  redis_zadd db "job_queue" job_id priority

/-- `JobManager.get_job_queue_length`: `llen("job_queue")`. -/
def job_queue_length_kv (db : RedisDB) : Except String ℕ :=
  redis_llen db "job_queue"

/-- Claim C10 is violated by the code: `_queue_job` stores `job_queue` as
a sorted set, so as soon as one job is enqueued the `llen`-based
`get_job_queue_length` raises `WRONGTYPE` instead of returning the number
of enqueued job ids. -/
theorem c10_queue_length_wrongtype :
    queue_job_kv [] "job_1" 1 =
      Except.ok [("job_queue", RedisVal.zset [("job_1", 1)])] ∧
    job_queue_length_kv [("job_queue", RedisVal.zset [("job_1", 1)])] =
      Except.error wrongtype_msg :=
  ⟨rfl, rfl⟩
